import Mathlib

/-!
Shallow embedding of the Paraty GO! responsiveness-check scripts
(src/test-responsive.js and src/test-visual.js).

The analyzer works by regex/substring scanning over the raw CSS text; the
embedding models each scan as an executable function over `List Char`,
translated pattern by pattern from the regular expressions in the source.
JavaScript strings become `String`/`List Char`, the three global arrays
`issues`, `warnings`, `passed` become the record `St`, and `Array.push`
becomes appending a singleton at the end of the corresponding list.
-/

namespace ParatyGo

/-- JavaScript digit class (the regex class backslash-d, ASCII digits). -/
def isDigitChar (c : Char) : Bool := '0' ≤ c && c ≤ '9'

/-- JavaScript whitespace class (the regex class backslash-s), restricted to
the ASCII whitespace characters, which are the only ones the analyzed CSS
texts use. -/
def isSpaceChar (c : Char) : Bool :=
  c = ' ' || c = '\t' || c = '\n' || c = '\x0d' || c = '\x0b' || c = '\x0c'

/-- ASCII lower-casing, used for the case-insensitive style-tag regex flag. -/
def lowerChar (c : Char) : Char :=
  if 'A' ≤ c && c ≤ 'Z' then Char.ofNat (c.toNat + 32) else c

/-- Does the list start with the given pattern (literal, case-sensitive)? -/
def listStartsWith : List Char → List Char → Bool
  | _, [] => true
  | [], _ :: _ => false
  | a :: as, b :: bs => a == b && listStartsWith as bs

/-- Does the list start with the given lowercase pattern, comparing
case-insensitively (the regex i flag on ASCII letters)? -/
def listStartsWithCI : List Char → List Char → Bool
  | _, [] => true
  | [], _ :: _ => false
  | a :: as, b :: bs => lowerChar a == b && listStartsWithCI as bs

/-- Substring test over char lists: JavaScript `String.prototype.includes`. -/
def listHasSub (pat : List Char) : List Char → Bool
  | [] => pat.isEmpty
  | c :: rest => listStartsWith (c :: rest) pat || listHasSub pat rest

/-- JavaScript `String.prototype.includes` on `String`. -/
def strContains (s pat : String) : Bool := listHasSub pat.toList s.toList

/-- `parseInt` on a run of decimal digits. -/
def digitsToNat (ds : List Char) : Nat :=
  ds.foldl (fun acc c => acc * 10 + (c.toNat - '0'.toNat)) 0

/-- The three process-wide accumulator arrays of test-responsive.js
(`issues`, `warnings`, `passed`, declared in that order). -/
structure St where
  issues : List String
  warnings : List String
  passed : List String
deriving DecidableEq

/-- `issues.push(m)`. -/
def pushIssue (m : String) (st : St) : St := { st with issues := st.issues ++ [m] }

/-- `warnings.push(m)`. -/
def pushWarning (m : String) (st : St) : St := { st with warnings := st.warnings ++ [m] }

/-- `passed.push(m)`. -/
def pushPass (m : String) (st : St) : St := { st with passed := st.passed ++ [m] }

/-- The initial state: all three arrays start empty. -/
def emptySt : St := ⟨[], [], []⟩

/-- The literal token `@media`. -/
def mediaTok : List Char := '@' :: 'm' :: 'e' :: 'd' :: 'i' :: 'a' :: []

/-- Global scan for the media-query regex: literal `@media`, then one or more
non-brace characters, then an opening brace.  Matches are non-overlapping and
found left to right; on failure at a position the scan advances one character,
exactly as the JavaScript regex engine does for `String.match` with the g
flag.  The fuel argument starts at the list length; every step consumes at
least one character, so it never runs out. -/
def mediaScanGo : Nat → List Char → List (List Char)
  | 0, _ => []
  | _ + 1, [] => []
  | fuel + 1, s@(_ :: rest) =>
    if listStartsWith s mediaTok then
      let after := s.drop 6
      let run := after.takeWhile (fun c => c != '\x7b')
      match after.drop run.length with
      | '\x7b' :: rest2 =>
        if run.isEmpty then mediaScanGo fuel rest
        else (mediaTok ++ run ++ ['\x7b']) :: mediaScanGo fuel rest2
      | _ => mediaScanGo fuel rest
    else mediaScanGo fuel rest

/-- All matches of the media-query pattern in the corpus (source line 68). -/
def mediaQueryMatches (s : List Char) : List (List Char) := mediaScanGo s.length s

/-- First match of `key` followed by optional whitespace, one or more digits
and the literal `px`, returning the parsed digits; models
`mq.match(regex)` for the max-width / min-width patterns at source
lines 73 and 77 together with `parseInt`.  Greedy whitespace and digit runs
are exact here: shrinking either run on backtracking can never produce a
match the maximal runs miss, because a shortened run is followed by a
character of its own class. -/
def firstKeyNum (key : List Char) : List Char → Option Nat
  | [] => none
  | s@(_ :: rest) =>
    if listStartsWith s key then
      let after := (s.drop key.length).dropWhile isSpaceChar
      let digits := after.takeWhile isDigitChar
      if digits.isEmpty then firstKeyNum key rest
      else if listStartsWith (after.drop digits.length) ('p' :: 'x' :: []) then
        some (digitsToNat digits)
      else firstKeyNum key rest
    else firstKeyNum key rest

/-- Breakpoint extraction (source lines 71-81): for each media-query match,
push the first max-width value, then the first min-width value. -/
def extractBps (content : String) : List Nat :=
  (mediaQueryMatches content.toList).foldl (fun acc mq =>
    let acc1 := match firstKeyNum "max-width:".toList mq with
      | some n => acc ++ [n]
      | none => acc
    match firstKeyNum "min-width:".toList mq with
      | some n => acc1 ++ [n]
      | none => acc1) []

/-- Global scan for `key` + optional whitespace + three-or-more digits +
literal `px` (the fixed-width pattern at source line 105 with key `width:`
and the padding pattern at line 153 with key `padding:`).  Returns the
matched substrings, non-overlapping, left to right. -/
def pxDeclGo (key : List Char) : Nat → List Char → List (List Char)
  | 0, _ => []
  | _ + 1, [] => []
  | fuel + 1, s@(_ :: rest) =>
    if listStartsWith s key then
      let afterKey := s.drop key.length
      let ws := afterKey.takeWhile isSpaceChar
      let afterWs := afterKey.drop ws.length
      let digits := afterWs.takeWhile isDigitChar
      if 3 ≤ digits.length &&
          listStartsWith (afterWs.drop digits.length) ('p' :: 'x' :: []) then
        (key ++ ws ++ digits ++ ('p' :: 'x' :: [])) ::
          pxDeclGo key fuel (afterWs.drop (digits.length + 2))
      else pxDeclGo key fuel rest
    else pxDeclGo key fuel rest

/-- All matches of a px-declaration pattern in the corpus. -/
def pxDeclMatches (key : List Char) (s : List Char) : List (List Char) :=
  pxDeclGo key s.length s

/-- `content.match(widthPattern) || []` (source line 105). -/
def fixedWidths (content : String) : List (List Char) :=
  pxDeclMatches "width:".toList content.toList

/-- `content.match(paddingPattern) || []` (source line 153). -/
def largePaddings (content : String) : List (List Char) :=
  pxDeclMatches "padding:".toList content.toList

/-- `w.match(digitsPattern)[0]`: the first run of digits in a match. -/
def firstDigitRun (m : List Char) : List Char :=
  (m.dropWhile (fun c => !isDigitChar c)).takeWhile isDigitChar

/-- `parseInt(w.match(digitsPattern)[0])` (source line 107). -/
def firstDigitVal (m : List Char) : Nat := digitsToNat (firstDigitRun m)

/-- `fixedWidths.filter(w => parseInt(...) > 400)` (source lines 106-109). -/
def largeFixedWidths (content : String) : List (List Char) :=
  (fixedWidths content).filter (fun w => 400 < firstDigitVal w)

/-- The unit alternatives of the responsive-units regex at source line 120. -/
def unitAlts : List (List Char) :=
  ["vw".toList, "vh".toList, "rem".toList, "em".toList, "%".toList, "clamp".toList]

/-- Does a match of the responsive-units pattern start at the head of the
list: one or more digits, an optional dot-and-digits fractional part, then
one of the unit alternatives.  Backtracking of the greedy digit runs never
helps: a shortened digit run is followed by a digit, and no alternative
starts with a digit or a dot. -/
def respUnitAt (l : List Char) : Bool :=
  match l with
  | [] => false
  | c :: _ =>
    if isDigitChar c then
      let rest1 := l.dropWhile isDigitChar
      let intAlt := unitAlts.any (fun u => listStartsWith rest1 u)
      let fracAlt :=
        match rest1 with
        | '.' :: r =>
          let fr := r.takeWhile isDigitChar
          if fr.isEmpty then false
          else unitAlts.any (fun u => listStartsWith (r.drop fr.length) u)
        | _ => false
      intAlt || fracAlt
    else false

/-- `regex.test(content)` for the responsive-units pattern (source line 120):
a match starting at some position. -/
def hasRespUnits : List Char → Bool
  | [] => false
  | s@(_ :: rest) => respUnitAt s || hasRespUnits rest

/-- `regex.test(content)` for the responsive-units pattern, on `String`. -/
def hasResponsiveUnits (content : String) : Bool := hasRespUnits content.toList

/-- Test for `key` + optional whitespace + literal `val`, the shape of the
simple patterns at source lines 127, 128, 136, 146 and 160. -/
def hasKeyVal (key val : List Char) : List Char → Bool
  | [] => false
  | s@(_ :: rest) =>
    (listStartsWith s key &&
      listStartsWith ((s.drop key.length).dropWhile isSpaceChar) val)
    || hasKeyVal key val rest

/-- `regex.test(content)` for a key/value pattern, on `String`. -/
def hasPattern (key val content : String) : Bool :=
  hasKeyVal key.toList val.toList content.toList

/-- Existence of a match for the per-selector declaration-block regex built at
source line 189: escaped selector, optional whitespace, opening brace,
non-brace characters, closing brace.  The source only uses
`matches.length > 0`, which is equivalent to a match existing anywhere. -/
def hasDeclBlock (sel content : String) : Bool :=
  declAux sel.toList content.toList
where
  declAux (sel : List Char) : List Char → Bool
    | [] => false
    | s@(_ :: rest) =>
      (listStartsWith s sel &&
        (match (s.drop sel.length).dropWhile isSpaceChar with
         | '\x7b' :: body => body.any (fun c => c = '\x7d')
         | _ => false))
      || declAux sel rest

/-- `content.split(mediaToken)` (source line 198): split on every occurrence
of the literal `@media`, exactly as JavaScript `String.prototype.split` with
a string separator. -/
def splitGo : Nat → List Char → List (List Char)
  | 0, s => [s]
  | fuel + 1, s =>
    match s with
    | [] => [[]]
    | c :: rest =>
      if listStartsWith s mediaTok then
        [] :: splitGo fuel (s.drop 6)
      else
        match splitGo fuel rest with
        | [] => [[c]]
        | p :: ps => (c :: p) :: ps

/-- `content.split(mediaToken)` on a char list. -/
def splitOnMedia (s : List Char) : List (List Char) := splitGo s.length s

/-- The lowercase open-tag literal of the style-block regex (source line 361). -/
def openTagL : List Char := "<style".toList

/-- The lowercase close-tag literal of the style-block regex. -/
def closeTagL : List Char := "</style>".toList

/-- Find the earliest case-insensitive close tag (the lazy any-character group
of the style-block regex stops at the first close tag): returns the content
before the tag and the remainder after it. -/
def styleFindClose : Nat → List Char → Option (List Char × List Char)
  | 0, _ => none
  | _ + 1, [] => none
  | fuel + 1, s@(c :: rest) =>
    if listStartsWithCI s closeTagL then some ([], s.drop 8)
    else match styleFindClose fuel rest with
      | some (pre, after) => some (c :: pre, after)
      | none => none

/-- Global case-insensitive scan for the style-block regex of source line 361:
open tag, non-gt attribute run, gt, lazy body, close tag.  Returns the full
matched substrings (original casing), non-overlapping, left to right. -/
def styleScanGo : Nat → List Char → List (List Char)
  | 0, _ => []
  | _ + 1, [] => []
  | fuel + 1, s@(_ :: rest) =>
    if listStartsWithCI s openTagL then
      let after := s.drop 6
      let attrs := after.takeWhile (fun c => c != '>')
      match after.drop attrs.length with
      | '>' :: body =>
        match styleFindClose body.length body with
        | some (inner, afterAll) =>
          s.take (6 + attrs.length + 1 + inner.length + 8) :: styleScanGo fuel afterAll
        | none => styleScanGo fuel rest
      | _ => styleScanGo fuel rest
    else styleScanGo fuel rest

/-- Style extraction in `main` (source lines 361-363): `content.match(...)`
is null when there is no match, in which case the file is not analyzed;
otherwise the matched blocks are joined with a newline.  `none` models the
null match result. -/
def extractStyles (content : String) : Option String :=
  let ms := styleScanGo content.toList.length content.toList
  if ms.isEmpty then none
  else some (String.intercalate "\n" (ms.map (fun l => String.mk l)))

/-- Finding message at source line 89. -/
def tabletOkMsg : String := "Breakpoint para tablet (768px) definido"

/-- Finding message at source line 92. -/
def tabletWarnMsg : String := "Falta breakpoint específico para tablet (~768px)"

/-- Finding message at source line 97. -/
def mobileOkMsg : String := "Breakpoint para mobile definido"

/-- Finding message at source line 100. -/
def mobileIssueMsg : String := "Falta breakpoint para mobile pequeno (~480px)"

/-- Finding message at source line 115. -/
def fixedOkMsg : String := "Sem larguras fixas problemáticas"

/-- Finding message at source line 122. -/
def respUnitsMsg : String := "Usa unidades responsivas (vw, vh, rem, em, %, clamp)"

/-- Finding message at source line 131. -/
def layoutMsg : String := "Usa Flexbox/Grid para layout"

/-- Finding message at source line 138. -/
def overflowOkMsg : String := "Controle de overflow horizontal"

/-- Finding message at source line 141. -/
def overflowWarnMsg : String := "Considere adicionar overflow-x: hidden no body"

/-- Finding message at source line 148. -/
def clampMsg : String := "Usa clamp() para fontes responsivas"

/-- Finding message at source line 162. -/
def imagesMsg : String := "Imagens com max-width: 100%"

/-- `mqBreakpoints.some(bp => bp >= 600 && bp <= 900)` (source line 84). -/
def hasTabletBp (content : String) : Bool :=
  (extractBps content).any (fun bp => decide (600 ≤ bp ∧ bp ≤ 900))

/-- `mqBreakpoints.some(bp => bp <= 500)` (source line 85). -/
def hasMobileBp (content : String) : Bool :=
  (extractBps content).any (fun bp => decide (bp ≤ 500))

/-- `mqBreakpoints.some(bp => bp >= 1000 && bp <= 1100)` (source line 86);
computed by the source but never used. -/
def hasLaptopBp (content : String) : Bool :=
  (extractBps content).any (fun bp => decide (1000 ≤ bp ∧ bp ≤ 1100))

/-- Section 1 of analyzeCSS (source lines 68-102): the tablet-breakpoint
finding, then the mobile-breakpoint finding. -/
def breakpointStep (content : String) (st : St) : St :=
  let st1 := if hasTabletBp content then pushPass tabletOkMsg st
             else pushWarning tabletWarnMsg st
  if hasMobileBp content then pushPass mobileOkMsg st1
  else pushIssue mobileIssueMsg st1

/-- Section 2 of analyzeCSS (source lines 104-117): fixed widths above
400px produce one warning carrying their count, otherwise a pass. -/
def fixedWidthStep (content : String) (st : St) : St :=
  let lfw := largeFixedWidths content
  if 0 < lfw.length then
    pushWarning (toString lfw.length ++ " larguras fixas > 400px encontradas") st
  else pushPass fixedOkMsg st

/-- Section 3 of analyzeCSS (source lines 119-124): responsive units give a
pass; nothing is recorded when absent. -/
def respUnitsStep (content : String) (st : St) : St :=
  if hasResponsiveUnits content then pushPass respUnitsMsg st else st

/-- Section 4 of analyzeCSS (source lines 126-133): flex or grid layout. -/
def layoutStep (content : String) (st : St) : St :=
  if hasPattern "display:" "flex" content || hasPattern "display:" "grid" content then
    pushPass layoutMsg st
  else st

/-- Section 5 of analyzeCSS (source lines 135-143): overflow-x control. -/
def overflowStep (content : String) (st : St) : St :=
  if hasPattern "overflow-x:" "hidden" content then pushPass overflowOkMsg st
  else pushWarning overflowWarnMsg st

/-- Section 6 of analyzeCSS (source lines 145-150): clamp font sizing. -/
def clampFontStep (content : String) (st : St) : St :=
  if hasPattern "font-size:" "clamp" content then pushPass clampMsg st else st

/-- Section 7 of analyzeCSS (source lines 152-157): large paddings. -/
def paddingStep (content : String) (st : St) : St :=
  let lp := largePaddings content
  if 0 < lp.length then
    pushWarning (toString lp.length ++ " paddings > 100px encontrados") st
  else st

/-- Section 8 of analyzeCSS (source lines 159-164): responsive images. -/
def maxWidthStep (content : String) (st : St) : St :=
  if hasPattern "max-width:" "100%" content then pushPass imagesMsg st else st

/-- The object returned by analyzeCSS (source line 166). -/
structure Analysis where
  mqBreakpoints : List Nat
  hasTablet : Bool
  hasMobile : Bool
deriving DecidableEq

/-- `analyzeCSS(content, filename)` (source lines 64-167): run the eight
rule sections in order over the shared state and return the analysis
object. -/
def analyzeCSS (content : String) (st : St) : St × Analysis :=
  let st1 := breakpointStep content st
  let st2 := fixedWidthStep content st1
  let st3 := respUnitsStep content st2
  let st4 := layoutStep content st3
  let st5 := overflowStep content st4
  let st6 := clampFontStep content st5
  let st7 := paddingStep content st6
  let st8 := maxWidthStep content st7
  (st8, ⟨extractBps content, hasTabletBp content, hasMobileBp content⟩)

/-- The fixed selector catalog of analyzeElements (source lines 175-186). -/
def criticalElements : List (String × String) :=
  [ (".container", "Container principal"),
    (".hero", "Seção Hero"),
    (".logo", "Logo"),
    (".form-section", "Formulário"),
    (".submit-btn", "Botão de envio"),
    (".form-grid", "Grid do formulário"),
    (".text-block", "Blocos de texto"),
    (".benefits-grid", "Grid de benefícios"),
    (".benefit-card", "Cards de benefício"),
    (".partnership-container", "Seção parceria") ]

/-- The loop at source lines 201-206: walk the split fragments from index 1,
stopping at the first fragment that contains the bare selector name. -/
def respLoopAux (bare : List Char) : List (List Char) → Bool
  | [] => false
  | f :: fs => if listHasSub bare f then true else respLoopAux bare fs

/-- `hasResponsive` for one selector (source lines 198-206): split the corpus
on the media token and scan the fragments after the first. -/
def hasRespLoop (content bare : String) : Bool :=
  respLoopAux bare.toList ((splitOnMedia content.toList).drop 1)

/-- One iteration of the analyzeElements loop (source lines 188-218): a
selector with a declaration block gets a pass or a warning; one without is
only logged. -/
def elementStep (content : String) (st : St) (el : String × String) : St :=
  if hasDeclBlock el.1 content then
    if hasRespLoop content (el.1.drop 1) then
      pushPass (el.2 ++ ": tem estilos responsivos") st
    else
      pushWarning (el.2 ++ ": pode precisar de ajustes mobile") st
  else st

/-- `analyzeElements(content)` (source lines 172-219). -/
def analyzeElements (content : String) (st : St) : St :=
  criticalElements.foldl (elementStep content) st

/-- A suggestion record (source lines 231-262). -/
structure Suggestion where
  priority : String
  message : String
  code : String
deriving DecidableEq

/-- The conditional mobile-breakpoint suggestion (source lines 230-241). -/
def mobileSuggestion : Suggestion :=
  ⟨"ALTA", "Adicionar breakpoint para mobile pequeno (max-width: 480px)",
   "@media (max-width: 480px) \x7b\n    .container \x7b padding: 20px 16px; \x7d\n    .logo \x7b font-size: 2.5rem; \x7d\n    .form-section \x7b padding: 24px 16px; \x7d\n    .submit-btn \x7b width: 100%; padding: 18px 24px; \x7d\n\x7d"⟩

/-- The unconditional touch-target suggestion (source lines 244-250). -/
def touchSuggestion : Suggestion :=
  ⟨"MÉDIA", "Garantir touch targets de pelo menos 44x44px em mobile",
   "@media (max-width: 768px) \x7b\n    .submit-btn, .social-link, button, a \x7b min-height: 44px; \x7d\n\x7d"⟩

/-- The unconditional form-input suggestion (source lines 253-262). -/
def formSuggestion : Suggestion :=
  ⟨"ALTA", "Inputs de formulário devem ter 100% de largura em mobile",
   "@media (max-width: 768px) \x7b\n    .form-group input, .form-group select, .form-group textarea \x7b\n        width: 100%;\n        font-size: 16px; /* Previne zoom no iOS */\n    \x7d\n\x7d"⟩

/-- `generateSuggestions(analysis)` (source lines 224-275): the mobile
suggestion only when the mobile breakpoint is missing, then the two fixed
suggestions.  It never touches the three accumulator arrays. -/
def generateSuggestions (analysis : Analysis) : List Suggestion :=
  (if analysis.hasMobile then [] else [mobileSuggestion]) ++
    [touchSuggestion, formSuggestion]

/-- The score expression at source line 323,
`Math.round((passed.length / (passed.length + warnings.length + issues.length)) * 100)`.
When the total is zero the JavaScript division yields NaN and `Math.round`
propagates it; `none` models that NaN, which `Nat` cannot represent.  When
the total is positive the result is round-half-up of `100 * p / total`,
computed exactly as `(200 * p + total) / (2 * total)` in integer floor
division; this agrees with the floating-point computation for the
binary-representable ratios arising here. -/
def scoreJS (st : St) : Option Nat :=
  let p := st.passed.length
  let total := p + st.warnings.length + st.issues.length
  if total = 0 then none else some ((200 * p + total) / (2 * total))

/-- The object returned by printReport (source line 339). -/
structure Report where
  passed : List String
  warnings : List String
  issues : List String
  score : Option Nat
deriving DecidableEq

/-- `printReport()` (source lines 302-340): a read-only view over the
accumulated state plus the score. -/
def printReport (st : St) : Report :=
  ⟨st.passed, st.warnings, st.issues, scoreJS st⟩

/-- `report.issues.length > 0 ? 1 : 0` (source line 377). -/
def reportExitCode (r : Report) : Nat := if 0 < r.issues.length then 1 else 0

/-- One entry of the driver's file list: the file is missing from the
working directory, or present with the given full text. -/
inductive FileInput where
  | missing : FileInput
  | present : String → FileInput
deriving DecidableEq

/-- The per-file body of the driver loop (source lines 355-371): a missing
file is only logged; a present file has its style blocks extracted, and only
when at least one exists are analyzeCSS, analyzeElements and
generateSuggestions run on the joined corpus. -/
def processFile (st : St) (fi : FileInput) : St :=
  match fi with
  | .missing => st
  | .present content =>
    match extractStyles content with
    | none => st
    | some css =>
      let r := analyzeCSS css st
      let st1 := analyzeElements css r.1
      let _ := generateSuggestions r.2
      st1

/-- The accumulated state after the driver loop over the file list
(source lines 353-371), starting from the empty accumulators. -/
def runSt (files : List FileInput) : St :=
  files.foldl processFile emptySt

/-- `main()` (source lines 345-378): final state and process exit code. -/
def mainRun (files : List FileInput) : St × Nat :=
  let st := runSt files
  (st, reportExitCode (printReport st))

/-- The touch-target predicate of test-visual.js (source lines 147-162): a
clickable element is flagged when its bounding rectangle has positive width
and height, one of them is below 44, and its identifier does not contain
`checkbox`.  The rectangle dimensions are modelled as rationals. -/
def smallTouchTarget (w h : ℚ) (id : String) : Bool :=
  (decide (0 < w) && decide (0 < h) && (decide (w < 44) || decide (h < 44)))
    && !(strContains id "checkbox")

/-- Spec-side verdict of the Element Responsiveness Checker, written from the
spec's words (section 4.2): a selector with no declaration block yields no
verdict; otherwise the verdict is whether the bare name appears in some
fragment after the first split point of the corpus split on the media
token. -/
def elementVerdictSpec (content sel : String) : Option Bool :=
  if hasDeclBlock sel content then
    some (((splitOnMedia content.toList).drop 1).any
      (fun frag => listHasSub (sel.drop 1).toList frag))
  else none

/-- Spec-side element checker: fold the spec verdicts over the catalog,
emitting the pass or warning finding, or nothing for an absent selector. -/
def analyzeElementsSpec (content : String) (st : St) : St :=
  criticalElements.foldl (fun acc el =>
    match elementVerdictSpec content el.1 with
    | some true => pushPass (el.2 ++ ": tem estilos responsivos") acc
    | some false => pushWarning (el.2 ++ ": pode precisar de ajustes mobile") acc
    | none => acc) st

/-- One state extends another exactly when each of the three sequences of the
new state is the old one with entries appended at the end. -/
def stExtends (old new : St) : Prop :=
  (∃ a, new.issues = old.issues ++ a) ∧
  (∃ b, new.warnings = old.warnings ++ b) ∧
  (∃ c, new.passed = old.passed ++ c)

/-! ### Basic lemmas about the push operations -/

theorem issues_pushWarning (m : String) (st : St) :
    (pushWarning m st).issues = st.issues := rfl

theorem issues_pushPass (m : String) (st : St) :
    (pushPass m st).issues = st.issues := rfl

theorem issues_pushIssue (m : String) (st : St) :
    (pushIssue m st).issues = st.issues ++ [m] := rfl

theorem passed_pushWarning (m : String) (st : St) :
    (pushWarning m st).passed = st.passed := rfl

theorem passed_pushIssue (m : String) (st : St) :
    (pushIssue m st).passed = st.passed := rfl

theorem warnings_pushPass (m : String) (st : St) :
    (pushPass m st).warnings = st.warnings := rfl

theorem mem_passed_pushPass (m a : String) (st : St) :
    m ∈ (pushPass a st).passed ↔ m ∈ st.passed ∨ m = a := by
  simp [pushPass]

theorem append_singleton_ne (l : List String) (a : String) : l ++ [a] ≠ l := by
  intro h
  have hlen := congrArg List.length h
  simp at hlen

/-! ### The extension order on states -/

theorem stExtends_refl (st : St) : stExtends st st :=
  ⟨⟨[], by simp⟩, ⟨[], by simp⟩, ⟨[], by simp⟩⟩

theorem stExtends_trans {s t u : St} (h1 : stExtends s t) (h2 : stExtends t u) :
    stExtends s u := by
  obtain ⟨⟨a1, ha1⟩, ⟨b1, hb1⟩, ⟨c1, hc1⟩⟩ := h1
  obtain ⟨⟨a2, ha2⟩, ⟨b2, hb2⟩, ⟨c2, hc2⟩⟩ := h2
  exact ⟨⟨a1 ++ a2, by simp [ha2, ha1]⟩, ⟨b1 ++ b2, by simp [hb2, hb1]⟩,
         ⟨c1 ++ c2, by simp [hc2, hc1]⟩⟩

theorem stExtends_pushIssue (m : String) (st : St) : stExtends st (pushIssue m st) :=
  ⟨⟨[m], rfl⟩, ⟨[], by simp [pushIssue]⟩, ⟨[], by simp [pushIssue]⟩⟩

theorem stExtends_pushWarning (m : String) (st : St) : stExtends st (pushWarning m st) :=
  ⟨⟨[], by simp [pushWarning]⟩, ⟨[m], rfl⟩, ⟨[], by simp [pushWarning]⟩⟩

theorem stExtends_pushPass (m : String) (st : St) : stExtends st (pushPass m st) :=
  ⟨⟨[], by simp [pushPass]⟩, ⟨[], by simp [pushPass]⟩, ⟨[m], rfl⟩⟩

theorem passed_mono_of_stExtends {s t : St} (h : stExtends s t) {m : String}
    (hm : m ∈ s.passed) : m ∈ t.passed := by
  obtain ⟨_, _, ⟨c, hc⟩⟩ := h
  rw [hc]
  exact List.mem_append_left _ hm

/-! ### Per-step structural lemmas -/

theorem stExtends_breakpointStep (c : String) (st : St) :
    stExtends st (breakpointStep c st) := by
  unfold breakpointStep
  dsimp only
  split <;> split <;>
    first
      | exact stExtends_trans (stExtends_pushPass _ _) (stExtends_pushPass _ _)
      | exact stExtends_trans (stExtends_pushPass _ _) (stExtends_pushIssue _ _)
      | exact stExtends_trans (stExtends_pushWarning _ _) (stExtends_pushPass _ _)
      | exact stExtends_trans (stExtends_pushWarning _ _) (stExtends_pushIssue _ _)

theorem stExtends_fixedWidthStep (c : String) (st : St) :
    stExtends st (fixedWidthStep c st) := by
  unfold fixedWidthStep
  dsimp only
  split
  · exact stExtends_pushWarning _ _
  · exact stExtends_pushPass _ _

theorem stExtends_respUnitsStep (c : String) (st : St) :
    stExtends st (respUnitsStep c st) := by
  unfold respUnitsStep
  split
  · exact stExtends_pushPass _ _
  · exact stExtends_refl st

theorem stExtends_layoutStep (c : String) (st : St) :
    stExtends st (layoutStep c st) := by
  unfold layoutStep
  split
  · exact stExtends_pushPass _ _
  · exact stExtends_refl st

theorem stExtends_overflowStep (c : String) (st : St) :
    stExtends st (overflowStep c st) := by
  unfold overflowStep
  split
  · exact stExtends_pushPass _ _
  · exact stExtends_pushWarning _ _

theorem stExtends_clampFontStep (c : String) (st : St) :
    stExtends st (clampFontStep c st) := by
  unfold clampFontStep
  split
  · exact stExtends_pushPass _ _
  · exact stExtends_refl st

theorem stExtends_paddingStep (c : String) (st : St) :
    stExtends st (paddingStep c st) := by
  unfold paddingStep
  dsimp only
  split
  · exact stExtends_pushWarning _ _
  · exact stExtends_refl st

theorem stExtends_maxWidthStep (c : String) (st : St) :
    stExtends st (maxWidthStep c st) := by
  unfold maxWidthStep
  split
  · exact stExtends_pushPass _ _
  · exact stExtends_refl st

theorem stExtends_analyzeCSS (c : String) (st : St) :
    stExtends st ((analyzeCSS c st).1) := by
  unfold analyzeCSS
  dsimp only
  exact stExtends_trans (stExtends_breakpointStep c st)
    (stExtends_trans (stExtends_fixedWidthStep c _)
      (stExtends_trans (stExtends_respUnitsStep c _)
        (stExtends_trans (stExtends_layoutStep c _)
          (stExtends_trans (stExtends_overflowStep c _)
            (stExtends_trans (stExtends_clampFontStep c _)
              (stExtends_trans (stExtends_paddingStep c _)
                (stExtends_maxWidthStep c _)))))))

theorem stExtends_elementStep (c : String) (st : St) (el : String × String) :
    stExtends st (elementStep c st el) := by
  unfold elementStep
  split
  · split
    · exact stExtends_pushPass _ _
    · exact stExtends_pushWarning _ _
  · exact stExtends_refl st

theorem stExtends_foldl {α : Type} (f : St → α → St)
    (hf : ∀ s x, stExtends s (f s x)) :
    ∀ (l : List α) (s : St), stExtends s (l.foldl f s) := by
  intro l
  induction l with
  | nil => intro s; exact stExtends_refl s
  | cons x xs ih =>
    intro s
    exact stExtends_trans (hf s x) (ih (f s x))

theorem stExtends_analyzeElements (c : String) (st : St) :
    stExtends st (analyzeElements c st) :=
  stExtends_foldl (elementStep c) (stExtends_elementStep c) criticalElements st

theorem stExtends_processFile (st : St) (fi : FileInput) :
    stExtends st (processFile st fi) := by
  unfold processFile
  match fi with
  | .missing => exact stExtends_refl st
  | .present content =>
    dsimp only
    split
    · exact stExtends_refl st
    · exact stExtends_trans (stExtends_analyzeCSS _ st) (stExtends_analyzeElements _ _)

/-! ### Which step touches which sequence -/

theorem issues_fixedWidthStep (c : String) (st : St) :
    (fixedWidthStep c st).issues = st.issues := by
  unfold fixedWidthStep; dsimp only; split <;> rfl

theorem issues_respUnitsStep (c : String) (st : St) :
    (respUnitsStep c st).issues = st.issues := by
  unfold respUnitsStep; split <;> rfl

theorem issues_layoutStep (c : String) (st : St) :
    (layoutStep c st).issues = st.issues := by
  unfold layoutStep; split <;> rfl

theorem issues_overflowStep (c : String) (st : St) :
    (overflowStep c st).issues = st.issues := by
  unfold overflowStep; split <;> rfl

theorem issues_clampFontStep (c : String) (st : St) :
    (clampFontStep c st).issues = st.issues := by
  unfold clampFontStep; split <;> rfl

theorem issues_paddingStep (c : String) (st : St) :
    (paddingStep c st).issues = st.issues := by
  unfold paddingStep; dsimp only; split <;> rfl

theorem issues_maxWidthStep (c : String) (st : St) :
    (maxWidthStep c st).issues = st.issues := by
  unfold maxWidthStep; split <;> rfl

theorem issues_breakpointStep (c : String) (st : St) :
    (breakpointStep c st).issues =
      if hasMobileBp c then st.issues else st.issues ++ [mobileIssueMsg] := by
  unfold breakpointStep
  dsimp only
  cases hT : hasTabletBp c <;> cases hM : hasMobileBp c <;>
    simp [pushPass, pushWarning, pushIssue]

theorem issues_analyzeCSS (c : String) (st : St) :
    ((analyzeCSS c st).1).issues =
      if hasMobileBp c then st.issues else st.issues ++ [mobileIssueMsg] := by
  unfold analyzeCSS
  dsimp only
  rw [issues_maxWidthStep, issues_paddingStep, issues_clampFontStep,
    issues_overflowStep, issues_layoutStep, issues_respUnitsStep,
    issues_fixedWidthStep, issues_breakpointStep]

theorem passed_breakpointStep_mobile (c : String) (st : St)
    (h : hasMobileBp c = true) : mobileOkMsg ∈ (breakpointStep c st).passed := by
  unfold breakpointStep
  dsimp only
  rw [h]
  cases hT : hasTabletBp c <;> simp [pushPass, pushWarning]

theorem passed_mem_breakpointStep (c : String) (st : St) (m : String)
    (h1 : m ≠ tabletOkMsg) (h2 : m ≠ mobileOkMsg) :
    m ∈ (breakpointStep c st).passed ↔ m ∈ st.passed := by
  unfold breakpointStep
  dsimp only
  cases hT : hasTabletBp c <;> cases hM : hasMobileBp c <;>
    simp [pushPass, pushWarning, pushIssue, h1, h2]

theorem passed_mem_fixedWidthStep (c : String) (st : St) (m : String)
    (h : m ≠ fixedOkMsg) :
    m ∈ (fixedWidthStep c st).passed ↔ m ∈ st.passed := by
  unfold fixedWidthStep
  dsimp only
  split
  · rfl
  · simp [pushPass, h]

theorem passed_mem_respUnitsStep (c : String) (st : St) (m : String) :
    m ∈ (respUnitsStep c st).passed ↔
      m ∈ st.passed ∨ (hasResponsiveUnits c = true ∧ m = respUnitsMsg) := by
  unfold respUnitsStep
  cases h : hasResponsiveUnits c <;> simp [pushPass, h]

theorem passed_mem_layoutStep (c : String) (st : St) (m : String)
    (h : m ≠ layoutMsg) :
    m ∈ (layoutStep c st).passed ↔ m ∈ st.passed := by
  unfold layoutStep
  split
  · simp [pushPass, h]
  · rfl

theorem passed_mem_overflowStep (c : String) (st : St) (m : String)
    (h : m ≠ overflowOkMsg) :
    m ∈ (overflowStep c st).passed ↔ m ∈ st.passed := by
  unfold overflowStep
  split
  · simp [pushPass, h]
  · rfl

theorem passed_mem_clampFontStep (c : String) (st : St) (m : String)
    (h : m ≠ clampMsg) :
    m ∈ (clampFontStep c st).passed ↔ m ∈ st.passed := by
  unfold clampFontStep
  split
  · simp [pushPass, h]
  · rfl

theorem passed_paddingStep (c : String) (st : St) :
    (paddingStep c st).passed = st.passed := by
  unfold paddingStep; dsimp only; split <;> rfl

theorem passed_mem_maxWidthStep (c : String) (st : St) (m : String)
    (h : m ≠ imagesMsg) :
    m ∈ (maxWidthStep c st).passed ↔ m ∈ st.passed := by
  unfold maxWidthStep
  split
  · simp [pushPass, h]
  · rfl

theorem respLoopAux_eq_any (bare : List Char) (l : List (List Char)) :
    respLoopAux bare l = l.any (fun frag => listHasSub bare frag) := by
  induction l with
  | nil => rfl
  | cons f fs ih =>
    unfold respLoopAux
    cases h : listHasSub bare f <;> simp [h, ih]

/-! ### Claim theorems -/

/-- Claim C1 (code bug): the score computation is NOT guarded.  When all
three Finding sequences are empty — reachable from a real driver run in
which both input files are missing — the source divides zero by zero and
`Math.round` propagates the resulting NaN into the printed score, modelled
here by `scoreJS` returning `none`. -/
theorem claim1_score_nan_unguarded :
    scoreJS emptySt = none
    ∧ runSt [FileInput.missing, FileInput.missing] = emptySt
    ∧ (printReport (runSt [FileInput.missing, FileInput.missing])).score = none := by
  decide

/-- Claim C2 (counterexample): running the rules on the empty corpus does
produce a Pass finding (the fixed-width rule passes when no large fixed
width is found), so the claimed "exactly three Findings and no Pass
findings" is false. -/
theorem claim2_counterexample :
    (analyzeElements "" ((analyzeCSS "" emptySt).1)).passed ≠ [] := by
  decide

/-- Claim C2 (amended): running the Rule Set and the Element Checker on the
empty corpus produces exactly four Findings — a tablet-breakpoint Warning, a
mobile-breakpoint Issue, an overflow-x Warning, and a fixed-widths Pass —
and the resulting score is the defined, non-crashing value 25. -/
theorem claim2_empty_corpus_findings :
    analyzeElements "" ((analyzeCSS "" emptySt).1) =
      ⟨[mobileIssueMsg], [tabletWarnMsg, overflowWarnMsg], [fixedOkMsg]⟩
    ∧ scoreJS (analyzeElements "" ((analyzeCSS "" emptySt).1)) = some 25 := by
  decide

/-- Claim C3 (counterexample): a present file without style blocks is
skipped entirely — the state is unchanged and no Finding is emitted — even
though running the rules on an empty corpus would emit the absence-policy
Warnings, so the claimed "still runs all rules over the resulting empty
Corpus" is false. -/
theorem claim3_counterexample :
    processFile emptySt (FileInput.present "<p>oi</p>") = emptySt
    ∧ (analyzeElements "" ((analyzeCSS "" emptySt).1)).warnings ≠ [] := by
  decide

/-- Claim C3 (amended): for every input file that exists but contains no
complete style block, the style-match is null, the analyzer does not throw,
and the file is skipped entirely: no rule runs and no Finding is emitted
(the accumulated state is returned unchanged). -/
theorem claim3_no_style_skips_file : ∀ (content : String) (st : St),
    extractStyles content = none → processFile st (FileInput.present content) = st := by
  intro content st h
  simp [processFile, h]

/-- Claim C3 witness: the concrete file text has no style block and is
skipped with the state unchanged. -/
theorem claim3_witness :
    extractStyles "<p>oi</p>" = none
    ∧ processFile emptySt (FileInput.present "<p>oi</p>") = emptySt :=
  ⟨by decide, claim3_no_style_skips_file "<p>oi</p>" emptySt (by decide)⟩

/-- Claim C4 (counterexample): the fixed selector catalog has ten entries,
not fourteen. -/
theorem claim4_counterexample :
    criticalElements.length ≠ 14 ∧ criticalElements.length = 10 := by
  decide

/-- Claim C4 (amended): the Element Responsiveness Checker iterates a fixed
catalog of TEN named selectors and behaves exactly as the spec describes:
for each selector with at least one declaration block it splits the corpus
on every occurrence of the media token and emits the responsive-override
Pass exactly when the bare name appears in some fragment after the first
split point, otherwise the needs-review Warning; selectors with no
declaration block emit no Finding.  Stated as equality with the spec-worded
checker. -/
theorem claim4_element_checker_refines :
    criticalElements.length = 10
    ∧ ∀ (content : String) (st : St),
        analyzeElements content st = analyzeElementsSpec content st := by
  refine ⟨rfl, ?_⟩
  intro content st
  unfold analyzeElements analyzeElementsSpec
  refine List.foldl_ext _ _ st ?_
  intro acc el _
  unfold elementStep elementVerdictSpec hasRespLoop
  cases h : hasDeclBlock el.1 content
  · simp [h]
  · rw [respLoopAux_eq_any]
    cases h2 : ((splitOnMedia content.toList).drop 1).any
        (fun frag => listHasSub (el.1.drop 1).toList frag) <;>
      simp [h, h2]

/-- Claim C5: for every corpus whose extracted breakpoints contain a value
at most 500, the mobile-breakpoint rule emits its Pass finding and
analyzeCSS appends nothing to the Issue sequence; for every corpus with no
such extracted value, analyzeCSS appends exactly the mobile Issue. -/
theorem claim5_mobile_breakpoint_rule : ∀ (content : String) (st : St),
    ((extractBps content).any (fun bp => decide (bp ≤ 500)) = true →
      mobileOkMsg ∈ ((analyzeCSS content st).1).passed
        ∧ ((analyzeCSS content st).1).issues = st.issues)
    ∧ ((extractBps content).any (fun bp => decide (bp ≤ 500)) = false →
      ((analyzeCSS content st).1).issues = st.issues ++ [mobileIssueMsg]) := by
  intro content st
  constructor
  · intro h
    have h' : hasMobileBp content = true := h
    constructor
    · have h1 : mobileOkMsg ∈ (breakpointStep content st).passed :=
        passed_breakpointStep_mobile content st h'
      unfold analyzeCSS
      dsimp only
      refine passed_mono_of_stExtends ?_ h1
      exact stExtends_trans (stExtends_fixedWidthStep _ _)
        (stExtends_trans (stExtends_respUnitsStep _ _)
          (stExtends_trans (stExtends_layoutStep _ _)
            (stExtends_trans (stExtends_overflowStep _ _)
              (stExtends_trans (stExtends_clampFontStep _ _)
                (stExtends_trans (stExtends_paddingStep _ _)
                  (stExtends_maxWidthStep _ _))))))
    · simp [issues_analyzeCSS, h']
  · intro h
    have h' : hasMobileBp content = false := h
    simp [issues_analyzeCSS, h']

/-- Claim C5 witness: a corpus with a 480px max-width media query gets the
mobile Pass and no Issue; the empty corpus gets exactly the mobile Issue. -/
theorem claim5_witness :
    (mobileOkMsg ∈ ((analyzeCSS "@media (max-width: 480px) \x7b .logo \x7b font-size: 2rem; \x7d \x7d" emptySt).1).passed
      ∧ ((analyzeCSS "@media (max-width: 480px) \x7b .logo \x7b font-size: 2rem; \x7d \x7d" emptySt).1).issues = emptySt.issues)
    ∧ ((analyzeCSS "" emptySt).1).issues = emptySt.issues ++ [mobileIssueMsg] :=
  ⟨(claim5_mobile_breakpoint_rule
      "@media (max-width: 480px) \x7b .logo \x7b font-size: 2rem; \x7d \x7d" emptySt).1
      (by decide),
   (claim5_mobile_breakpoint_rule "" emptySt).2 (by decide)⟩

/-- Claim C6: the fixed-width rule warns exactly when some scanned
width-declaration match has a first numeric value exceeding 400, and the
boundary behaves as claimed: a corpus whose only such declaration is
400px does not trigger the Warning (it earns the Pass instead), one with
401px does, and the Warning counts only the exceeding occurrences. -/
theorem claim6_fixed_width_rule : ∀ (content : String) (st : St),
    ((fixedWidthStep content st).warnings ≠ st.warnings ↔
      ∃ m ∈ fixedWidths content, 400 < firstDigitVal m)
    ∧ (analyzeCSS "width: 400px" emptySt).1 =
        ⟨[mobileIssueMsg], [tabletWarnMsg, overflowWarnMsg], [fixedOkMsg]⟩
    ∧ (analyzeCSS "width: 401px" emptySt).1 =
        ⟨[mobileIssueMsg],
         [tabletWarnMsg, "1 larguras fixas > 400px encontradas", overflowWarnMsg], []⟩
    ∧ (fixedWidthStep "width: 500px width: 400px width: 600px" emptySt).warnings =
        ["2 larguras fixas > 400px encontradas"] := by
  intro content st
  refine ⟨?_, by decide, by decide, by decide⟩
  unfold fixedWidthStep
  dsimp only
  split
  · next h =>
    constructor
    · intro _
      rcases List.exists_mem_of_length_pos h with ⟨m, hm⟩
      unfold largeFixedWidths at hm
      rw [List.mem_filter] at hm
      exact ⟨m, hm.1, by simpa using hm.2⟩
    · intro _
      simp only [pushWarning]
      exact append_singleton_ne _ _
  · next h =>
    simp only [warnings_pushPass]
    constructor
    · intro hne
      exact absurd rfl hne
    · rintro ⟨m, hmem, hval⟩
      have hm2 : m ∈ largeFixedWidths content := by
        unfold largeFixedWidths
        rw [List.mem_filter]
        exact ⟨hmem, by simpa using hval⟩
      exact absurd (List.length_pos.mpr (List.ne_nil_of_mem hm2)) h

/-- Claim C7 (counterexample): a corpus whose only responsive construct is a
clamp expression not preceded by a digit does NOT receive the
responsive-units Pass, because the source pattern requires a number
immediately before the unit alternative. -/
theorem claim7_counterexample :
    strContains "width: clamp(100px, 150px, 200px)" "clamp(" = true
    ∧ respUnitsMsg ∉
        ((analyzeCSS "width: clamp(100px, 150px, 200px)" emptySt).1).passed := by
  decide

/-- Claim C7 (amended): the responsive-units rule emits its Pass finding
exactly when the corpus contains a digit run (optionally with a fractional
part) immediately followed by vw, vh, rem, em, the percent sign, or the
literal clamp; when that pattern is absent the rule emits no Finding at all
(warnings and issues untouched).  A bare clamp expression without a
preceding number does not count. -/
theorem claim7_resp_units_rule : ∀ (content : String) (st : St),
    (respUnitsMsg ∈ ((analyzeCSS content st).1).passed ↔
      (respUnitsMsg ∈ st.passed ∨ hasResponsiveUnits content = true))
    ∧ (respUnitsStep content st).warnings = st.warnings
    ∧ (respUnitsStep content st).issues = st.issues := by
  intro content st
  refine ⟨?_, ?_, issues_respUnitsStep content st⟩
  · unfold analyzeCSS
    dsimp only
    rw [passed_mem_maxWidthStep _ _ _ (by decide)]
    rw [passed_paddingStep]
    rw [passed_mem_clampFontStep _ _ _ (by decide)]
    rw [passed_mem_overflowStep _ _ _ (by decide)]
    rw [passed_mem_layoutStep _ _ _ (by decide)]
    rw [passed_mem_respUnitsStep]
    rw [passed_mem_fixedWidthStep _ _ _ (by decide)]
    rw [passed_mem_breakpointStep _ _ _ (by decide) (by decide)]
    simp
  · unfold respUnitsStep
    split <;> rfl

/-- Claim C8: across any driver run, the process exit status is zero exactly
when the accumulated Issue sequence is empty; the exit code is a function of
the issue sequence alone (warnings and passes never affect it); and a
missing input file leaves the state unchanged rather than aborting the
run. -/
theorem claim8_exit_status : ∀ (files : List FileInput),
    ((mainRun files).2 = 0 ↔ (runSt files).issues = [])
    ∧ (∀ (i w p w2 p2 : List String),
        reportExitCode (printReport ⟨i, w, p⟩) = reportExitCode (printReport ⟨i, w2, p2⟩))
    ∧ (∀ st : St, processFile st FileInput.missing = st) := by
  intro files
  refine ⟨?_, fun i w p w2 p2 => rfl, fun st => rfl⟩
  unfold mainRun reportExitCode printReport
  dsimp only
  split
  · next h =>
    constructor
    · intro h10
      exact absurd h10 one_ne_zero
    · intro hnil
      rw [hnil] at h
      simp at h
  · next h =>
    constructor
    · intro _
      exact List.length_eq_zero.mp (Nat.eq_zero_of_not_pos h)
    · intro _
      rfl

/-- Claim C9: the collaborator's touch-target check flags an element with
positive width and height whose identifier does not contain `checkbox`
exactly when its width or its height is below 44. -/
theorem claim9_touch_target_boundary : ∀ (w h : ℚ) (id : String),
    0 < w → 0 < h → strContains id "checkbox" = false →
    (smallTouchTarget w h id = true ↔ (w < 44 ∨ h < 44)) := by
  intro w h id hw hh hid
  simp [smallTouchTarget, hid, hw, hh]

/-- Claim C9 witness: an element of exactly 44 by 44 is not flagged, one of
43 by 44 is. -/
theorem claim9_witness :
    smallTouchTarget 43 44 "BUTTON" = true
    ∧ smallTouchTarget 44 44 "BUTTON" = false :=
  ⟨(claim9_touch_target_boundary 43 44 "BUTTON" (by decide) (by decide) (by decide)).2
      (Or.inl (by decide)),
   by decide⟩

/-- Claim C10: every operation of the analyzer only appends to the three
process-wide Finding sequences — analyzeCSS, analyzeElements, the per-file
driver body and the whole driver fold each produce a state extending their
input state entry-for-entry, and the final report is the accumulated
sequences themselves together with the score computed from them. -/
theorem claim10_append_only : ∀ (content : String) (st : St) (fi : FileInput)
    (files : List FileInput),
    stExtends st ((analyzeCSS content st).1)
    ∧ stExtends st (analyzeElements content st)
    ∧ stExtends st (processFile st fi)
    ∧ stExtends st (files.foldl processFile st)
    ∧ (printReport st).passed = st.passed
    ∧ (printReport st).warnings = st.warnings
    ∧ (printReport st).issues = st.issues
    ∧ (printReport st).score = scoreJS st :=
  fun content st fi files =>
    ⟨stExtends_analyzeCSS content st, stExtends_analyzeElements content st,
     stExtends_processFile st fi,
     stExtends_foldl processFile stExtends_processFile files st,
     rfl, rfl, rfl, rfl⟩

end ParatyGo
